import Mathlib

/-!
Verification of the OR-tools timetabling scripts.

The repository consists of three Python scripts, each of which builds a
CP-SAT boolean model for a timetabling problem and solves it:

- basic_timetable.py  (Script1): 2 courses, 2 slots, 2 rooms; each course
  exactly once; room exclusivity.  A teachers list is declared but no
  teacher constraint is emitted.
- basic_timetable2.py (Script2): 20 courses, 8 slots, 5 rooms, 10 teachers;
  the course-to-teacher map is drawn from the PRNG at run time; frequency,
  room and teacher constraints are emitted.
- basic_timetable3.py (Script3): 6 courses over 5 days x 6 slots x 3 rooms,
  2 professors, per-course weekly frequencies, usage indicators y[d,s]
  linked by a big-M constraint, objective minimizing used slots.

Each constraint family added by a model.Add call inside a loop nest is
embedded as one conjunct of a satisfiability predicate quantified over the
same integer ranges as the Python loops; the Python generator expression
inside each sum is embedded as a list sum over the corresponding key list
in the same iteration order.  The sequence of constraints itself is also
embedded as a list of constraint records where a claim is about the model
as data (construction determinism, totality of construction).
-/

namespace Timetable

/-- Value of a CP-SAT boolean variable as the 0/1 integer that enters the
linear constraints. -/
def boolVal (b : Bool) : Nat := if b then 1 else 0

/-- Sum of f over a list of keys: embedding of a Python generator-expression
sum over a loop nest flattened in iteration order. -/
def listSum (l : List α) (f : α → Nat) : Nat := (l.map f).sum

/-- Relation symbol of an emitted linear constraint. -/
inductive Rel
  | eq
  | le
deriving DecidableEq

/-- A linear constraint of the simple shape all three scripts emit over the
assignment variables: a sum of variables (given by their keys, coefficient
one) compared to a constant bound. -/
structure LinearCon (kappa : Type) where
  vars : List kappa
  rel : Rel
  bound : Nat
deriving DecidableEq

namespace Script1

/-- Data of basic_timetable.py: teachers (declared, never used in a
constraint). -/
def teachers : List String := ["Prof A", "Prof B"]

/-- Data of basic_timetable.py: courses. -/
def courses : List String := ["Math", "Physics"]

/-- Data of basic_timetable.py: rooms. -/
def rooms : List String := ["Room1", "Room2"]

/-- Data of basic_timetable.py: slots. -/
def slots : List String := ["Morning", "Afternoon"]

/-- Iteration keys (s, r) of the generator in the exactly-once constraint:
for s in range(len(slots)) for r in range(len(rooms)). -/
def slotRoomKeys : List (Nat × Nat) :=
  (List.range slots.length).flatMap fun s =>
    (List.range rooms.length).map fun r => (s, r)

/-- Left-hand side of the exactly-once constraint for course c:
sum(x[(c,s,r)] for s in range(len(slots)) for r in range(len(rooms))). -/
def courseLoad (x : Nat → Nat → Nat → Bool) (c : Nat) : Nat :=
  listSum slotRoomKeys fun k => boolVal (x c k.1 k.2)

/-- Left-hand side of the room-clash constraint for (s, r):
sum(x[(c,s,r)] for c in range(len(courses))). -/
def roomLoad (x : Nat → Nat → Nat → Bool) (s r : Nat) : Nat :=
  listSum (List.range courses.length) fun c => boolVal (x c s r)

/-- Satisfaction of every constraint basic_timetable.py adds to the model:
the exactly-once family (one Add per course) and the room-clash family (one
Add per slot and room).  These are the only Add calls in the script. -/
def satisfies (x : Nat → Nat → Nat → Bool) : Prop :=
  (∀ c < courses.length, courseLoad x c = 1) ∧
  (∀ s < slots.length, ∀ r < rooms.length, roomLoad x s r ≤ 1)

/-- Keys (c, r) of the teacher-exclusivity sum the specification asserts is
emitted for teacher t (courses owned by t crossed with rooms).  The script
declares no course-to-teacher relation, so the ownership map ct is a
parameter; no constraint over this sum appears in the script. -/
def teacherKeys (ct : Nat → Nat) (t : Nat) : List (Nat × Nat) :=
  ((List.range courses.length).filter fun c => ct c == t).flatMap fun c =>
    (List.range rooms.length).map fun r => (c, r)

/-- Number of placements of teacher t's courses in slot s, under ownership
map ct: the sum the asserted teacher-exclusivity constraint would bound. -/
def teacherLoad (ct : Nat → Nat) (x : Nat → Nat → Nat → Bool) (t s : Nat) : Nat :=
  listSum (teacherKeys ct t) fun k => boolVal (x k.1 s k.2)

/-- Placement list printed in the success branch of the script: the loop
over c, s, r printing each variable whose solver value is 1. -/
def placements (x : Nat → Nat → Nat → Bool) : List (Nat × Nat × Nat) :=
  (List.range courses.length).flatMap fun c =>
    (List.range slots.length).flatMap fun s =>
      (List.range rooms.length).filterMap fun r =>
        if x c s r then some (c, s, r) else none

/-- A concrete satisfying assignment: course c in slot c, room 0. -/
def xW : Nat → Nat → Nat → Bool := fun c s r => c == s && r == 0

/-- A concrete satisfying assignment placing both courses in slot 0
(course 0 in room 0, course 1 in room 1). -/
def xBoth : Nat → Nat → Nat → Bool := fun c s r =>
  (c == 0 && s == 0 && r == 0) || (c == 1 && s == 0 && r == 1)

/-- An ownership map under which both courses are owned by teacher 0. -/
def ctShared : Nat → Nat := fun _ => 0

end Script1

namespace Script2

/-- Data of basic_timetable2.py: 10 teachers named by chr(65+i). -/
def teachers : List String :=
  (List.range 10).map fun i => "Teacher ".push (Char.ofNat (65 + i))

/-- Data of basic_timetable2.py: 20 courses. -/
def courses : List String := (List.range 20).map fun i => "Course" ++ toString (i + 1)

/-- Data of basic_timetable2.py: 5 rooms. -/
def rooms : List String := (List.range 5).map fun r => "Room" ++ toString (r + 1)

/-- Data of basic_timetable2.py: 8 slots. -/
def slots : List String := (List.range 8).map fun s => "Slot" ++ toString (s + 1)

/-- Model of Python's random.randint(lo, hi): returns a PRNG-dependent
integer in the inclusive range lo..hi.  The draw argument abstracts the
PRNG output for one call; the reduction into the range follows the
documented contract that the result lies in lo..hi inclusive. -/
def randint (lo hi : Nat) (draw : Nat) : Nat := lo + draw % (hi + 1 - lo)

/-- Embedding of the dict comprehension that sets course_teacher of c to
random.randint(0, len(teachers)-1) for every course c: the map depends on
the PRNG stream draw, one draw per course. -/
def course_teacher (draw : Nat → Nat) : Nat → Nat :=
  fun c => randint 0 (teachers.length - 1) (draw c)

/-- Iteration keys (s, r) of the generator in the exactly-once constraint. -/
def slotRoomKeys : List (Nat × Nat) :=
  (List.range slots.length).flatMap fun s =>
    (List.range rooms.length).map fun r => (s, r)

/-- Left-hand side of the exactly-once constraint for course c. -/
def courseLoad (x : Nat → Nat → Nat → Bool) (c : Nat) : Nat :=
  listSum slotRoomKeys fun k => boolVal (x c k.1 k.2)

/-- Left-hand side of the room-clash constraint for (s, r). -/
def roomLoad (x : Nat → Nat → Nat → Bool) (s r : Nat) : Nat :=
  listSum (List.range courses.length) fun c => boolVal (x c s r)

/-- Iteration keys (c, r) of the generator in the teacher-clash constraint
for teacher t: for c in range(len(courses)) if course_teacher[c] == t
for r in range(len(rooms)). -/
def teacherKeys (ct : Nat → Nat) (t : Nat) : List (Nat × Nat) :=
  ((List.range courses.length).filter fun c => ct c == t).flatMap fun c =>
    (List.range rooms.length).map fun r => (c, r)

/-- Left-hand side of the teacher-clash constraint for teacher t, slot s. -/
def teacherLoad (ct : Nat → Nat) (x : Nat → Nat → Nat → Bool) (t s : Nat) : Nat :=
  listSum (teacherKeys ct t) fun k => boolVal (x k.1 s k.2)

/-- Satisfaction of every constraint basic_timetable2.py adds: exactly-once
per course, room clash per (slot, room), teacher clash per (teacher, slot),
with the course-to-teacher map ct as drawn. -/
def satisfies (ct : Nat → Nat) (x : Nat → Nat → Nat → Bool) : Prop :=
  (∀ c < courses.length, courseLoad x c = 1) ∧
  (∀ s < slots.length, ∀ r < rooms.length, roomLoad x s r ≤ 1) ∧
  (∀ t < teachers.length, ∀ s < slots.length, teacherLoad ct x t s ≤ 1)

/-- The exactly-once constraints as data, in emission order. -/
def freqCons : List (LinearCon (Nat × Nat × Nat)) :=
  (List.range courses.length).map fun c =>
    ⟨(List.range slots.length).flatMap fun s =>
      (List.range rooms.length).map fun r => (c, s, r), Rel.eq, 1⟩

/-- The room-clash constraints as data, in emission order. -/
def roomCons : List (LinearCon (Nat × Nat × Nat)) :=
  (List.range slots.length).flatMap fun s =>
    (List.range rooms.length).map fun r =>
      ⟨(List.range courses.length).map fun c => (c, s, r), Rel.le, 1⟩

/-- The teacher-clash constraints as data, in emission order, for the
course-to-teacher map ct. -/
def teacherCons (ct : Nat → Nat) : List (LinearCon (Nat × Nat × Nat)) :=
  (List.range teachers.length).flatMap fun t =>
    (List.range slots.length).map fun s =>
      ⟨((List.range courses.length).filter fun c => ct c == t).flatMap fun c =>
        (List.range rooms.length).map fun r => (c, s, r), Rel.le, 1⟩

/-- The full sequence of constraints basic_timetable2.py emits, in source
order, as a function of the drawn course-to-teacher map. -/
def buildModel (ct : Nat → Nat) : List (LinearCon (Nat × Nat × Nat)) :=
  freqCons ++ roomCons ++ teacherCons ct

/-- The teacher lookup performed when emitting the solution:
teachers[course_teacher[c]]. -/
def teacherOf (draw : Nat → Nat) (c : Nat) : Option String :=
  teachers[course_teacher draw c]?

/-- A concrete ownership map (as drawn by a PRNG stream returning c). -/
def ctW : Nat → Nat := fun c => c % 10

/-- A concrete satisfying assignment for ctW: course c in slot c mod 8,
room c div 8. -/
def xW : Nat → Nat → Nat → Bool := fun c s r => s == c % 8 && r == c / 8

/-- A PRNG stream that always returns 0. -/
def drawA : Nat → Nat := fun _ => 0

/-- A PRNG stream that always returns 1. -/
def drawB : Nat → Nat := fun _ => 1

/-- An ownership map agreeing with ctW on all 20 courses but differing
beyond them. -/
def ctB : Nat → Nat := fun c => if c < 20 then c % 10 else 42

end Script2

namespace Script3

/-- Data of basic_timetable3.py: the 5-day week. -/
def days : List String := ["Mon", "Tue", "Wed", "Thu", "Fri"]

/-- Number of days. -/
def num_days : Nat := days.length

/-- Candidate slots per day. -/
def max_slots_per_day : Nat := 6

/-- Data of basic_timetable3.py: 3 rooms. -/
def rooms : List String := (List.range 3).map fun i => "Room" ++ toString (i + 1)

/-- Number of rooms. -/
def num_rooms : Nat := rooms.length

/-- Data of basic_timetable3.py: 6 courses. -/
def courses : List String := (List.range 6).map fun i => "Course" ++ toString (i + 1)

/-- Number of courses. -/
def num_courses : Nat := courses.length

/-- Weekly frequency of each course, as the course_freq dict of the script
(total keys 0..5; the default branch is never reached by the loops). -/
def course_freq : Nat → Nat
  | 0 => 3
  | 1 => 3
  | 2 => 3
  | 3 => 3
  | 4 => 2
  | 5 => 2
  | _ => 0

/-- Data of basic_timetable3.py: the professors. -/
def professors : List String := ["Prof1", "Prof2"]

/-- Course-to-professor assignment, as the course_prof dict of the script. -/
def course_prof : Nat → Nat
  | 0 => 0
  | 1 => 1
  | 2 => 0
  | 3 => 1
  | 4 => 1
  | _ => 0

/-- The big-M coefficient of the usage-link constraint, as in the script:
bigM = num_courses * num_rooms. -/
def bigM : Nat := num_courses * num_rooms

/-- Iteration keys (d, s, r) of the generator in the frequency constraint:
for d in range(num_days) for s in range(max_slots_per_day)
for r in range(num_rooms). -/
def weekKeys : List (Nat × Nat × Nat) :=
  (List.range num_days).flatMap fun d =>
    (List.range max_slots_per_day).flatMap fun s =>
      (List.range num_rooms).map fun r => (d, s, r)

/-- Left-hand side of the frequency constraint for course c. -/
def weekLoad (x : Nat → Nat → Nat → Nat → Bool) (c : Nat) : Nat :=
  listSum weekKeys fun k => boolVal (x c k.1 k.2.1 k.2.2)

/-- Iteration keys (s, r) of the generator in the one-session-per-day
constraint. -/
def dayKeys : List (Nat × Nat) :=
  (List.range max_slots_per_day).flatMap fun s =>
    (List.range num_rooms).map fun r => (s, r)

/-- Left-hand side of the one-session-per-day constraint for (c, d). -/
def dayLoad (x : Nat → Nat → Nat → Nat → Bool) (c d : Nat) : Nat :=
  listSum dayKeys fun k => boolVal (x c d k.1 k.2)

/-- Left-hand side of the room-clash constraint for (d, s, r). -/
def roomLoad (x : Nat → Nat → Nat → Nat → Bool) (d s r : Nat) : Nat :=
  listSum (List.range num_courses) fun c => boolVal (x c d s r)

/-- Iteration keys (c, r) of the generator in the professor-clash constraint
for professor p: for c in range(num_courses) if course_prof[c] == p
for r in range(num_rooms). -/
def profKeys (p : Nat) : List (Nat × Nat) :=
  ((List.range num_courses).filter fun c => course_prof c == p).flatMap fun c =>
    (List.range num_rooms).map fun r => (c, r)

/-- Left-hand side of the professor-clash constraint for (p, d, s). -/
def profLoad (x : Nat → Nat → Nat → Nat → Bool) (p d s : Nat) : Nat :=
  listSum (profKeys p) fun k => boolVal (x k.1 d s k.2)

/-- Iteration keys (c, r) of the generator in the usage-link constraint. -/
def slotKeys : List (Nat × Nat) :=
  (List.range num_courses).flatMap fun c =>
    (List.range num_rooms).map fun r => (c, r)

/-- Left-hand side of the usage-link constraint for (d, s): the number of
placements occupying slot (d, s) over all courses and rooms. -/
def slotLoad (x : Nat → Nat → Nat → Nat → Bool) (d s : Nat) : Nat :=
  listSum slotKeys fun k => boolVal (x k.1 d s k.2)

/-- Satisfaction of every constraint basic_timetable3.py adds: the five
families in source order (frequency, one-session-per-day, room clash,
professor clash, usage link), generalized over the frequency table so that
other frequency declarations can be analyzed with the same builder. -/
def satisfies (freq : Nat → Nat) (x : Nat → Nat → Nat → Nat → Bool)
    (y : Nat → Nat → Bool) : Prop :=
  (∀ c < num_courses, weekLoad x c = freq c) ∧
  (∀ c < num_courses, ∀ d < num_days, dayLoad x c d ≤ 1) ∧
  (∀ d < num_days, ∀ s < max_slots_per_day, ∀ r < num_rooms, roomLoad x d s r ≤ 1) ∧
  (∀ p < professors.length, ∀ d < num_days, ∀ s < max_slots_per_day, profLoad x p d s ≤ 1) ∧
  (∀ d < num_days, ∀ s < max_slots_per_day, slotLoad x d s ≤ bigM * boolVal (y d s))

/-- Objective of the script: the total number of used slots, the quantity
model.Minimize is applied to. -/
def objective (y : Nat → Nat → Bool) : Nat :=
  listSum ((List.range num_days).flatMap fun d =>
    (List.range max_slots_per_day).map fun s => (d, s)) fun k => boolVal (y k.1 k.2)

/-- Bound of an emitted constraint of the third script: either a constant,
or the big-M multiple of a usage variable y[d,s] (the only non-constant
right-hand side in the script). -/
inductive BoundTerm
  | const (n : Nat)
  | scaledY (m d s : Nat)
deriving DecidableEq

/-- A constraint record of the third script: variable keys (c, d, s, r)
with coefficient one, a relation and a bound term. -/
structure Con3 where
  vars : List (Nat × Nat × Nat × Nat)
  rel : Rel
  bound : BoundTerm
deriving DecidableEq

/-- The full sequence of constraints basic_timetable3.py emits, in source
order, as a function of the frequency table.  The construction is total as
in the script: no branch validates the frequencies and no error is ever
raised. -/
def build (freq : Nat → Nat) : List Con3 :=
  ((List.range num_courses).map fun c =>
    ⟨(List.range num_days).flatMap fun d =>
      (List.range max_slots_per_day).flatMap fun s =>
        (List.range num_rooms).map fun r => (c, d, s, r), Rel.eq, BoundTerm.const (freq c)⟩)
  ++ ((List.range num_courses).flatMap fun c =>
    (List.range num_days).map fun d =>
      ⟨(List.range max_slots_per_day).flatMap fun s =>
        (List.range num_rooms).map fun r => (c, d, s, r), Rel.le, BoundTerm.const 1⟩)
  ++ ((List.range num_days).flatMap fun d =>
    (List.range max_slots_per_day).flatMap fun s =>
      (List.range num_rooms).map fun r =>
        ⟨(List.range num_courses).map fun c => (c, d, s, r), Rel.le, BoundTerm.const 1⟩)
  ++ ((List.range professors.length).flatMap fun p =>
    (List.range num_days).flatMap fun d =>
      (List.range max_slots_per_day).map fun s =>
        ⟨((List.range num_courses).filter fun c => course_prof c == p).flatMap fun c =>
          (List.range num_rooms).map fun r => (c, d, s, r), Rel.le, BoundTerm.const 1⟩)
  ++ ((List.range num_days).flatMap fun d =>
    (List.range max_slots_per_day).map fun s =>
      ⟨(List.range num_courses).flatMap fun c =>
        (List.range num_rooms).map fun r => (c, d, s, r), Rel.le, BoundTerm.scaledY bigM d s⟩)

/-- Truth of one emitted constraint under an assignment. -/
def evalCon (x : Nat → Nat → Nat → Nat → Bool) (y : Nat → Nat → Bool)
    (con : Con3) : Prop :=
  let lhs := listSum con.vars fun k => boolVal (x k.1 k.2.1 k.2.2.1 k.2.2.2)
  let rhs := match con.bound with
    | BoundTerm.const n => n
    | BoundTerm.scaledY m d s => m * boolVal (y d s)
  match con.rel with
  | Rel.eq => lhs = rhs
  | Rel.le => lhs ≤ rhs

/-- A frequency table identical to course_freq except that course 0 demands
7 sessions, more than the 5 one-per-day sessions a 5-day week allows: the
instance of scenario 4 of the specification. -/
def freq7 : Nat → Nat := fun c => if c = 0 then 7 else course_freq c

/-- Per-course placement list of the output section (the per-course summary
loop over d, s, r collecting variables whose solver value is 1). -/
def placements (x : Nat → Nat → Nat → Nat → Bool) (c : Nat) : List (Nat × Nat × Nat) :=
  (List.range num_days).flatMap fun d =>
    (List.range max_slots_per_day).flatMap fun s =>
      (List.range num_rooms).filterMap fun r =>
        if x c d s r then some (d, s, r) else none

/-- Used slots of the output section: the (d, s) pairs whose y value is 1
(the grid print skips slots with y = 0). -/
def usedSlots (y : Nat → Nat → Bool) : List (Nat × Nat) :=
  (List.range num_days).flatMap fun d =>
    (List.range max_slots_per_day).filterMap fun s =>
      if y d s then some (d, s) else none

/-- A concrete satisfying assignment for the declared frequencies: course c
meets in slot c, room 0, on days 0 .. course_freq c - 1. -/
def xW : Nat → Nat → Nat → Nat → Bool := fun c d s r =>
  s == c && r == 0 && decide (d < course_freq c)

/-- Usage indicators exactly matching the occupied slots of xW. -/
def yW : Nat → Nat → Bool := fun d s => decide (d < course_freq s)

/-- Usage indicators matching xW except that the unoccupied slot (4, 5) is
also marked used. -/
def ySpur : Nat → Nat → Bool := fun d s => yW d s || (d == 4 && s == 5)

end Script3

/-- Solver status of CP-SAT as tested by the scripts. -/
inductive CpStatus
  | OPTIMAL
  | FEASIBLE
  | INFEASIBLE
  | MODEL_INVALID
  | UNKNOWN
deriving DecidableEq

/-- Output branch of basic_timetable.py: the placement list is printed only
when the status is OPTIMAL or FEASIBLE; otherwise only the no-solution
message is printed (modelled as none) and no variable is read. -/
def solutionOutput1 (st : CpStatus) (x : Nat → Nat → Nat → Bool) :
    Option (List (Nat × Nat × Nat)) :=
  if st = CpStatus.OPTIMAL ∨ st = CpStatus.FEASIBLE then
    some (Script1.placements x)
  else
    none

/-- Output branch of basic_timetable3.py: the used-slot grid and the
per-course placements are produced only when the status is OPTIMAL or
FEASIBLE; otherwise only the no-solution message is printed (modelled as
none) and no variable is read. -/
def solutionOutput3 (st : CpStatus) (x : Nat → Nat → Nat → Nat → Bool)
    (y : Nat → Nat → Bool) :
    Option (List (Nat × Nat) × List (List (Nat × Nat × Nat))) :=
  if st = CpStatus.OPTIMAL ∨ st = CpStatus.FEASIBLE then
    some (Script3.usedSlots y,
      (List.range Script3.num_courses).map fun c => Script3.placements x c)
  else
    none

instance decSatisfies1 (x : Nat → Nat → Nat → Bool) :
    Decidable (Script1.satisfies x) := by
  unfold Script1.satisfies
  exact inferInstance

instance decSatisfies2 (ct : Nat → Nat) (x : Nat → Nat → Nat → Bool) :
    Decidable (Script2.satisfies ct x) := by
  unfold Script2.satisfies
  exact inferInstance

instance decSatisfies3 (freq : Nat → Nat) (x : Nat → Nat → Nat → Nat → Bool)
    (y : Nat → Nat → Bool) : Decidable (Script3.satisfies freq x y) := by
  unfold Script3.satisfies
  exact inferInstance

/-- Sum over a flattened loop nest equals the iterated sum. -/
theorem listSum_flatMap (l : List α) (f : α → List β) (g : β → Nat) :
    listSum (l.flatMap f) g = listSum l fun a => listSum (f a) g := by
  induction l with
  | nil => rfl
  | cons a t ih =>
    simp [listSum, List.flatMap_cons] at ih ⊢
    simp [ih]

/-- Sum over a mapped list is the sum of the composite. -/
theorem listSum_map (l : List α) (h : α → β) (f : β → Nat) :
    listSum (l.map h) f = listSum l fun a => f (h a) := by
  unfold listSum
  rw [List.map_map]
  rfl

/-- Sums of pointwise-equal functions agree. -/
theorem listSum_congr {l : List α} {f g : α → Nat} (h : ∀ a ∈ l, f a = g a) :
    listSum l f = listSum l g := by
  unfold listSum
  rw [List.map_congr_left h]

/-- A sum of terms each at most one is at most the number of terms. -/
theorem listSum_le_length (l : List α) (f : α → Nat) (h : ∀ a ∈ l, f a ≤ 1) :
    listSum l f ≤ l.length := by
  induction l with
  | nil => simp [listSum]
  | cons a t ih =>
    simp only [listSum, List.map_cons, List.sum_cons, List.length_cons] at ih ⊢
    have h1 := h a (List.mem_cons_self a t)
    have h2 := ih fun b hb => h b (List.mem_cons_of_mem a hb)
    omega

/-- A sum of 0/1 indicators counts the keys satisfying the predicate. -/
theorem sum_eq_filter_length (l : List α) (p : α → Bool) :
    listSum l (fun a => boolVal (p a)) = (l.filter p).length := by
  induction l with
  | nil => rfl
  | cons a t ih =>
    simp only [listSum, List.map_cons, List.sum_cons, boolVal] at ih ⊢
    cases hp : p a <;> simp [List.filter_cons, hp, ih] <;> omega

/-- Length of a flattened loop nest is the sum of the inner lengths. -/
theorem length_flatMap (l : List α) (f : α → List β) :
    (l.flatMap f).length = listSum l fun a => (f a).length := by
  induction l with
  | nil => rfl
  | cons a t ih =>
    simp only [List.flatMap_cons, List.length_append, listSum, List.map_cons,
      List.sum_cons] at ih ⊢
    omega

/-- Length of a conditional filterMap is the sum of the 0/1 indicators of
the condition. -/
theorem length_filterMap_ite (l : List α) (p : α → Bool) (f : α → β) :
    (l.filterMap fun a => if p a then some (f a) else none).length =
      listSum l fun a => boolVal (p a) := by
  induction l with
  | nil => rfl
  | cons a t ih =>
    simp only [listSum, List.map_cons, List.sum_cons, boolVal] at ih ⊢
    cases hp : p a <;> simp [List.filterMap_cons, hp, ih] <;> omega

/-- Two distinct members force a list to have at least two elements. -/
theorem two_le_length_of_mem {l : List α} {a b : α} (ha : a ∈ l) (hb : b ∈ l)
    (hab : a ≠ b) : 2 ≤ l.length := by
  induction l with
  | nil => simp at ha
  | cons c t ih =>
    rcases List.mem_cons.1 ha with rfl | ha'
    · rcases List.mem_cons.1 hb with rfl | hb'
      · exact absurd rfl hab
      · have := List.length_pos.2 (List.ne_nil_of_mem hb')
        simp only [List.length_cons]
        omega
    · have := List.length_pos.2 (List.ne_nil_of_mem ha')
      simp only [List.length_cons]
      omega

/-- A member with a true indicator makes the indicator sum at least one. -/
theorem one_le_sum_of_mem (l : List α) (p : α → Bool) (a : α) (ha : a ∈ l)
    (hp : p a = true) : 1 ≤ listSum l fun b => boolVal (p b) := by
  rw [sum_eq_filter_length]
  have : a ∈ l.filter p := List.mem_filter.2 ⟨ha, hp⟩
  exact List.length_pos.2 (List.ne_nil_of_mem this)

/-- An at-most-one constraint forces any two true members to coincide. -/
theorem at_most_one_of_sum_le_one (l : List α) (p : α → Bool) (a b : α)
    (hsum : listSum l (fun c => boolVal (p c)) ≤ 1) (ha : a ∈ l) (hb : b ∈ l)
    (hpa : p a = true) (hpb : p b = true) : a = b := by
  by_contra hne
  rw [sum_eq_filter_length] at hsum
  have h2 := two_le_length_of_mem (List.mem_filter.2 ⟨ha, hpa⟩)
    (List.mem_filter.2 ⟨hb, hpb⟩) hne
  omega

/-- Membership in a rectangular loop-nest key list. -/
theorem mem_prodKeys {m n a b : Nat} (ha : a < m) (hb : b < n) :
    (a, b) ∈ (List.range m).flatMap fun i => (List.range n).map fun j => (i, j) :=
  List.mem_flatMap.2 ⟨a, List.mem_range.2 ha,
    List.mem_map.2 ⟨b, List.mem_range.2 hb, rfl⟩⟩

/-- Membership in a filtered loop-nest key list. -/
theorem mem_filterProdKeys {q : Nat → Bool} {m n c r : Nat} (hc : c < m)
    (hq : q c = true) (hr : r < n) :
    (c, r) ∈ ((List.range m).filter q).flatMap fun i =>
      (List.range n).map fun j => (i, j) :=
  List.mem_flatMap.2 ⟨c, List.mem_filter.2 ⟨List.mem_range.2 hc, hq⟩,
    List.mem_map.2 ⟨r, List.mem_range.2 hr, rfl⟩⟩

namespace Script3

/-- Membership of a (slot, room) pair in the one-session-per-day key list. -/
theorem mem_dayKeys {s r : Nat} (hs : s < max_slots_per_day) (hr : r < num_rooms) :
    (s, r) ∈ dayKeys :=
  mem_prodKeys hs hr

/-- Membership of a (course, room) pair in the usage-link key list. -/
theorem mem_slotKeys {c r : Nat} (hc : c < num_courses) (hr : r < num_rooms) :
    (c, r) ∈ slotKeys :=
  mem_prodKeys hc hr

/-- Membership of a (course, room) pair in the professor-clash key list of
the professor owning the course. -/
theorem mem_profKeys {c r : Nat} (hc : c < num_courses) (hr : r < num_rooms) :
    (c, r) ∈ profKeys (course_prof c) :=
  mem_filterProdKeys hc (beq_iff_eq.2 rfl) hr

/-- Membership of a (course, room) pair in the professor-clash key list of
a professor owning the course. -/
theorem mem_profKeys_of_eq {c r p : Nat} (hc : c < num_courses)
    (hp : course_prof c = p) (hr : r < num_rooms) : (c, r) ∈ profKeys p :=
  mem_filterProdKeys hc (beq_iff_eq.2 hp) hr

/-- Every course is owned by one of the two declared professors. -/
theorem course_prof_lt (c : Nat) : course_prof c < 2 := by
  unfold course_prof
  split <;> omega

/-- The weekly load of a course is the sum of its daily loads. -/
theorem weekLoad_eq_sum_dayLoad (x : Nat → Nat → Nat → Nat → Bool) (c : Nat) :
    weekLoad x c = listSum (List.range num_days) fun d => dayLoad x c d := by
  unfold weekLoad weekKeys dayLoad dayKeys
  rw [listSum_flatMap]
  apply listSum_congr
  intro d _
  rw [listSum_flatMap, listSum_flatMap]
  apply listSum_congr
  intro s _
  rw [listSum_map, listSum_map]

/-- The printed per-course placement list has as many entries as the
course's weekly load. -/
theorem placements_length (x : Nat → Nat → Nat → Nat → Bool) (c : Nat) :
    (placements x c).length = weekLoad x c := by
  unfold placements weekLoad weekKeys
  rw [length_flatMap, listSum_flatMap]
  apply listSum_congr
  intro d _
  rw [length_flatMap, listSum_flatMap]
  apply listSum_congr
  intro s _
  rw [length_filterMap_ite, listSum_map]

/-- The big-M link constraint forces the usage indicator of any occupied
slot. -/
theorem link_forces {x : Nat → Nat → Nat → Nat → Bool} {y : Nat → Nat → Bool}
    {d s : Nat} (hlink : slotLoad x d s ≤ bigM * boolVal (y d s))
    (hone : 1 ≤ slotLoad x d s) : y d s = true := by
  cases hy : y d s
  · rw [hy] at hlink
    simp [boolVal] at hlink
    omega
  · rfl

end Script3

/-- Concrete satisfying assignment for basic_timetable.py. -/
theorem sat1W : Script1.satisfies Script1.xW := by decide

/-- Concrete satisfying assignment for basic_timetable2.py under the
ownership map ctW. -/
theorem sat2W : Script2.satisfies Script2.ctW Script2.xW := by decide

/-- Concrete satisfying assignment for basic_timetable3.py with usage
indicators exactly marking the occupied slots. -/
theorem sat3W : Script3.satisfies Script3.course_freq Script3.xW Script3.yW := by
  decide

/-- C1: every script constrains the number of true assignment variables of
each course to equal its declared frequency (1 in the first two scripts,
course_freq in the third), so any assignment satisfying the model places
each course exactly that often; in the third script the printed per-course
placement list accordingly has exactly course_freq c entries. -/
theorem freq_law_all_models :
    (∀ x, Script1.satisfies x →
      ∀ c < Script1.courses.length, Script1.courseLoad x c = 1) ∧
    (∀ ct x, Script2.satisfies ct x →
      ∀ c < Script2.courses.length, Script2.courseLoad x c = 1) ∧
    (∀ x y, Script3.satisfies Script3.course_freq x y →
      ∀ c < Script3.num_courses,
        Script3.weekLoad x c = Script3.course_freq c ∧
        (Script3.placements x c).length = Script3.course_freq c) := by
  refine ⟨fun x h c hc => h.1 c hc, fun ct x h c hc => h.1 c hc,
    fun x y h c hc => ?_⟩
  have hw := h.1 c hc
  exact ⟨hw, by rw [Script3.placements_length]; exact hw⟩

/-- C1 witness: the frequency law evaluated on the concrete satisfying
assignments of the three models. -/
theorem freq_law_all_models_witness :
    Script1.courseLoad Script1.xW 0 = 1 ∧
    Script2.courseLoad Script2.xW 1 = 1 ∧
    (Script3.placements Script3.xW 0).length = Script3.course_freq 0 :=
  ⟨freq_law_all_models.1 Script1.xW sat1W 0 (by decide),
    freq_law_all_models.2.1 Script2.ctW Script2.xW sat2W 1 (by decide),
    (freq_law_all_models.2.2 Script3.xW Script3.yW sat3W 0 (by decide)).2⟩

/-- C2 counterexample: the first script emits no teacher constraint.  The
assignment xBoth satisfies every constraint basic_timetable.py adds, yet
under the ownership map placing both courses with teacher 0 that teacher is
placed twice in slot 0: the claimed teacher-exclusivity family is absent
from the first model. -/
theorem script1_no_teacher_constraint_cex :
    Script1.satisfies Script1.xBoth ∧
    Script1.teacherLoad Script1.ctShared Script1.xBoth 0 0 = 2 := by
  decide

/-- C2 (amended): the second and third scripts emit the teacher-exclusivity
family, so in their satisfying assignments two same-slot placements of
courses owned by the same teacher must be the same placement; the first
script declares a teachers list but builds no ownership relation and emits
no teacher constraint. -/
theorem teacher_exclusivity_scripts23 :
    (∀ ct x, Script2.satisfies ct x →
      ∀ s < Script2.slots.length, ∀ c < Script2.courses.length,
      ∀ c' < Script2.courses.length,
      ∀ r < Script2.rooms.length, ∀ r' < Script2.rooms.length,
      ct c < Script2.teachers.length → ct c = ct c' →
      x c s r = true → x c' s r' = true → (c, r) = (c', r')) ∧
    (∀ x y, Script3.satisfies Script3.course_freq x y →
      ∀ d < Script3.num_days, ∀ s < Script3.max_slots_per_day,
      ∀ c < Script3.num_courses, ∀ c' < Script3.num_courses,
      ∀ r < Script3.num_rooms, ∀ r' < Script3.num_rooms,
      Script3.course_prof c = Script3.course_prof c' →
      x c d s r = true → x c' d s r' = true → (c, r) = (c', r')) := by
  constructor
  · intro ct x h s hs c hc c' hc' r hr r' hr' ht hcc' hx hx'
    have hbound := h.2.2 (ct c) ht s hs
    exact at_most_one_of_sum_le_one (Script2.teacherKeys ct (ct c))
      (fun k => x k.1 s k.2) (c, r) (c', r') hbound
      (mem_filterProdKeys hc (beq_iff_eq.2 rfl) hr)
      (mem_filterProdKeys hc' (beq_iff_eq.2 hcc'.symm) hr') hx hx'
  · intro x y h d hd s hs c hc c' hc' r hr r' hr' hcc' hx hx'
    have hbound := h.2.2.2.1 (Script3.course_prof c)
      (Script3.course_prof_lt c) d hd s hs
    exact at_most_one_of_sum_le_one (Script3.profKeys (Script3.course_prof c))
      (fun k => x k.1 d s k.2) (c, r) (c', r') hbound
      (Script3.mem_profKeys hc hr)
      (Script3.mem_profKeys_of_eq hc' hcc'.symm hr') hx hx'

/-- C2 (amended) witness: the teacher-exclusivity law evaluated on the
concrete satisfying assignments of the second and third models. -/
theorem teacher_exclusivity_scripts23_witness :
    ((0 : Nat), (0 : Nat)) = ((0 : Nat), (0 : Nat)) ∧
    Script2.xW 0 0 0 = true ∧ Script3.xW 0 0 0 0 = true :=
  ⟨teacher_exclusivity_scripts23.1 Script2.ctW Script2.xW sat2W 0 (by decide)
    0 (by decide) 0 (by decide) 0 (by decide) 0 (by decide) (by decide) rfl
    (by decide) (by decide), by decide, by decide⟩

/-- C3 counterexample: the usage indicator is not forced to zero on empty
slots.  The assignment xW with indicators ySpur satisfies every constraint
of basic_timetable3.py, yet slot (4, 5) has indicator 1 and zero
placements, refuting the claimed if-and-only-if. -/
theorem usage_indicator_not_iff_cex :
    Script3.satisfies Script3.course_freq Script3.xW Script3.ySpur ∧
    Script3.ySpur 4 5 = true ∧ Script3.slotLoad Script3.xW 4 5 = 0 := by
  decide

/-- C3 (amended): in any assignment satisfying the third model the usage
indicator y[d,s] is 1 whenever some course occupies slot (d,s) in some
room; the converse is not constrained (only the minimization objective
discourages spurious indicators), so y = 1 with an empty slot remains
satisfiable. -/
theorem usage_indicator_forced_by_occupancy :
    ∀ x y, Script3.satisfies Script3.course_freq x y →
    ∀ d < Script3.num_days, ∀ s < Script3.max_slots_per_day,
    ∀ c < Script3.num_courses, ∀ r < Script3.num_rooms,
    x c d s r = true → y d s = true := by
  intro x y h d hd s hs c hc r hr hx
  have hlink := h.2.2.2.2 d hd s hs
  have hone : 1 ≤ Script3.slotLoad x d s :=
    one_le_sum_of_mem Script3.slotKeys (fun k => x k.1 d s k.2) (c, r)
      (Script3.mem_slotKeys hc hr) hx
  exact Script3.link_forces hlink hone

/-- C3 (amended) witness: occupancy of slot (0,0) by course 0 in the
concrete satisfying assignment forces its usage indicator. -/
theorem usage_indicator_forced_witness : Script3.yW 0 0 = true :=
  usage_indicator_forced_by_occupancy Script3.xW Script3.yW sat3W 0 (by decide)
    0 (by decide) 0 (by decide) 0 (by decide) (by decide)

set_option maxRecDepth 4000 in
/-- C4 counterexample: model construction never fails.  The builder of the
third script, embedded directly from its unconditional loops, returns the
full 216-constraint model for the frequency table demanding 7 sessions of
course 0 on a 5-day week — the same number of constraints as for the
declared frequencies — and no InvalidProblem error exists anywhere in the
code. -/
theorem build_never_fails_cex :
    (Script3.build Script3.freq7).length = 216 ∧
    (Script3.build Script3.freq7).length =
      (Script3.build Script3.course_freq).length ∧
    Script3.num_days < Script3.freq7 0 := by
  decide

/-- C4 (amended): the scripts perform no build-time validation and raise no
InvalidProblem; a frequency exceeding the per-course day capacity instead
yields a model no assignment satisfies (the frequency constraint demands 7
placements of course 0 while the one-session-per-day constraints cap them
at 5), which the solver can only report as INFEASIBLE. -/
theorem freq7_model_unsat :
    (∃ x y, Script3.satisfies Script3.freq7 x y) ↔ False := by
  constructor
  · rintro ⟨x, y, h⟩
    have h1 : Script3.weekLoad x 0 = 7 := h.1 0 (by decide)
    have h2 : ∀ d ∈ List.range Script3.num_days, Script3.dayLoad x 0 d ≤ 1 :=
      fun d hd => h.2.1 0 (by decide) d (List.mem_range.1 hd)
    have h3 := Script3.weekLoad_eq_sum_dayLoad x 0
    have h4 := listSum_le_length (List.range Script3.num_days)
      (fun d => Script3.dayLoad x 0 d) h2
    rw [List.length_range] at h4
    have h5 : Script3.num_days = 5 := rfl
    omega
  · exact False.elim

/-- C5 counterexample: model construction of the second script is not
deterministic across runs.  Two PRNG streams give different
course-to-teacher maps and the built models differ (already in the course 0
ownership), refuting determinism of the constraint model including the
ownership relation. -/
theorem build_model2_random_cex :
    Script2.buildModel (Script2.course_teacher Script2.drawA) ≠
      Script2.buildModel (Script2.course_teacher Script2.drawB) ∧
    Script2.course_teacher Script2.drawA 0 = 0 ∧
    Script2.course_teacher Script2.drawB 0 = 1 := by
  decide

/-- C5 (amended): model construction is a deterministic function of the
problem data together with the course-to-teacher ownership map — two
builders agreeing on the ownership of every declared course produce
identical constraint sequences (and the third script's builder depends only
on the declared frequencies) — but the second script draws its ownership
map from the PRNG at run time, so two runs need not build the same model. -/
theorem model_construction_deterministic :
    (∀ f g : Nat → Nat, (∀ c < Script2.courses.length, f c = g c) →
      Script2.buildModel f = Script2.buildModel g) ∧
    (∀ f g : Nat → Nat, (∀ c < Script3.num_courses, f c = g c) →
      Script3.build f = Script3.build g) := by
  constructor
  · intro f g h
    unfold Script2.buildModel Script2.teacherCons
    have hf : ∀ t : Nat,
        ((List.range Script2.courses.length).filter fun c => f c == t) =
        ((List.range Script2.courses.length).filter fun c => g c == t) := by
      intro t
      apply List.filter_congr
      intro c hc
      rw [h c (List.mem_range.1 hc)]
    simp only [hf]
  · intro f g h
    unfold Script3.build
    have hmap :
        ((List.range Script3.num_courses).map fun c =>
          (⟨(List.range Script3.num_days).flatMap fun d =>
            (List.range Script3.max_slots_per_day).flatMap fun s =>
              (List.range Script3.num_rooms).map fun r => (c, d, s, r),
            Rel.eq, Script3.BoundTerm.const (f c)⟩ : Script3.Con3)) =
        ((List.range Script3.num_courses).map fun c =>
          (⟨(List.range Script3.num_days).flatMap fun d =>
            (List.range Script3.max_slots_per_day).flatMap fun s =>
              (List.range Script3.num_rooms).map fun r => (c, d, s, r),
            Rel.eq, Script3.BoundTerm.const (g c)⟩ : Script3.Con3)) := by
      apply List.map_congr_left
      intro c hc
      rw [h c (List.mem_range.1 hc)]
    rw [hmap]

/-- C5 (amended) witness: two ownership maps agreeing on the 20 declared
courses (but not beyond) build the same second model, and the third model
is determined by the declared frequencies. -/
theorem model_construction_deterministic_witness :
    (∀ c < Script2.courses.length, Script2.ctW c = Script2.ctB c) ∧
    Script2.buildModel Script2.ctW = Script2.buildModel Script2.ctB ∧
    Script3.build Script3.course_freq = Script3.build Script3.course_freq :=
  ⟨by decide,
    model_construction_deterministic.1 Script2.ctW Script2.ctB (by decide),
    model_construction_deterministic.2 Script3.course_freq Script3.course_freq
      fun _ _ => rfl⟩

/-- C6: the usage-link constraint of the third script is the sum of all
assignment variables of a slot bounded by bigM times its indicator, with
bigM defined as the number of courses times the number of rooms (18), and
in any satisfying assignment an occupied slot forces its indicator to 1. -/
theorem bigM_link_forces_usage :
    Script3.bigM = Script3.num_courses * Script3.num_rooms ∧
    Script3.bigM = 18 ∧
    (∀ x y, Script3.satisfies Script3.course_freq x y →
      ∀ d < Script3.num_days, ∀ s < Script3.max_slots_per_day,
      Script3.slotLoad x d s ≤ Script3.bigM * boolVal (y d s) ∧
      (1 ≤ Script3.slotLoad x d s → y d s = true)) := by
  refine ⟨rfl, by decide, fun x y h d hd s hs => ?_⟩
  have hlink := h.2.2.2.2 d hd s hs
  exact ⟨hlink, fun hone => Script3.link_forces hlink hone⟩

/-- C6 witness: the usage-link law evaluated on the concrete satisfying
assignment: slot (0,0) is occupied, and its indicator is forced. -/
theorem bigM_link_forces_usage_witness :
    Script3.slotLoad Script3.xW 0 0 ≤
      Script3.bigM * boolVal (Script3.yW 0 0) ∧
    Script3.yW 0 0 = true :=
  ⟨(bigM_link_forces_usage.2.2 Script3.xW Script3.yW sat3W 0 (by decide)
      0 (by decide)).1,
    (bigM_link_forces_usage.2.2 Script3.xW Script3.yW sat3W 0 (by decide)
      0 (by decide)).2 (by decide)⟩

/-- C7: every script emits room exclusivity — at most one course per room
per slot — so in any satisfying assignment two courses placed in the same
room at the same time coincide. -/
theorem room_exclusivity_all_models :
    (∀ x, Script1.satisfies x →
      ∀ s < Script1.slots.length, ∀ r < Script1.rooms.length,
      ∀ c < Script1.courses.length, ∀ c' < Script1.courses.length,
      x c s r = true → x c' s r = true → c = c') ∧
    (∀ ct x, Script2.satisfies ct x →
      ∀ s < Script2.slots.length, ∀ r < Script2.rooms.length,
      ∀ c < Script2.courses.length, ∀ c' < Script2.courses.length,
      x c s r = true → x c' s r = true → c = c') ∧
    (∀ x y, Script3.satisfies Script3.course_freq x y →
      ∀ d < Script3.num_days, ∀ s < Script3.max_slots_per_day,
      ∀ r < Script3.num_rooms,
      ∀ c < Script3.num_courses, ∀ c' < Script3.num_courses,
      x c d s r = true → x c' d s r = true → c = c') := by
  refine ⟨fun x h s hs r hr c hc c' hc' hx hx' => ?_,
    fun ct x h s hs r hr c hc c' hc' hx hx' => ?_,
    fun x y h d hd s hs r hr c hc c' hc' hx hx' => ?_⟩
  · exact at_most_one_of_sum_le_one (List.range Script1.courses.length)
      (fun c => x c s r) c c' (h.2 s hs r hr)
      (List.mem_range.2 hc) (List.mem_range.2 hc') hx hx'
  · exact at_most_one_of_sum_le_one (List.range Script2.courses.length)
      (fun c => x c s r) c c' (h.2.1 s hs r hr)
      (List.mem_range.2 hc) (List.mem_range.2 hc') hx hx'
  · exact at_most_one_of_sum_le_one (List.range Script3.num_courses)
      (fun c => x c d s r) c c' (h.2.2.1 d hd s hs r hr)
      (List.mem_range.2 hc) (List.mem_range.2 hc') hx hx'

/-- C7 witness: the room-exclusivity law evaluated on the concrete
satisfying assignments of the three models. -/
theorem room_exclusivity_all_models_witness :
    Script1.xW 0 0 0 = true ∧ Script2.xW 0 0 0 = true ∧
    (0 : Nat) = (0 : Nat) :=
  ⟨by decide, by decide,
    room_exclusivity_all_models.2.2 Script3.xW Script3.yW sat3W 0 (by decide)
      0 (by decide) 0 (by decide) 0 (by decide) 0 (by decide) (by decide)
      (by decide)⟩

/-- C8: the third script — the only one whose instance has a day axis —
bounds each course's placements per day by one, so in any satisfying
assignment a course has no two placements on the same day: two same-day
placements of a course share slot and room. -/
theorem one_session_per_day :
    ∀ x y, Script3.satisfies Script3.course_freq x y →
    ∀ c < Script3.num_courses, ∀ d < Script3.num_days,
    Script3.dayLoad x c d ≤ 1 ∧
    (∀ s < Script3.max_slots_per_day, ∀ s' < Script3.max_slots_per_day,
     ∀ r < Script3.num_rooms, ∀ r' < Script3.num_rooms,
     x c d s r = true → x c d s' r' = true → (s, r) = (s', r')) := by
  intro x y h c hc d hd
  refine ⟨h.2.1 c hc d hd, fun s hs s' hs' r hr r' hr' hx hx' => ?_⟩
  exact at_most_one_of_sum_le_one Script3.dayKeys
    (fun k => x c d k.1 k.2) (s, r) (s', r') (h.2.1 c hc d hd)
    (Script3.mem_dayKeys hs hr) (Script3.mem_dayKeys hs' hr') hx hx'

/-- C8 witness: the one-session-per-day law evaluated on the concrete
satisfying assignment of the third model. -/
theorem one_session_per_day_witness :
    Script3.dayLoad Script3.xW 0 0 ≤ 1 :=
  (one_session_per_day Script3.xW Script3.yW sat3W 0 (by decide)
    0 (by decide)).1

/-- C9: both output branches produce a placement report exactly when the
solver status is OPTIMAL or FEASIBLE; for every other status they produce
only the no-solution message, and the output is then independent of the
variable assignment (no variable is read). -/
theorem placements_only_on_success :
    (∀ st x, (solutionOutput1 st x).isSome ↔
      (st = CpStatus.OPTIMAL ∨ st = CpStatus.FEASIBLE)) ∧
    (∀ st x x', st ≠ CpStatus.OPTIMAL → st ≠ CpStatus.FEASIBLE →
      solutionOutput1 st x = none ∧
      solutionOutput1 st x = solutionOutput1 st x') ∧
    (∀ st x y, (solutionOutput3 st x y).isSome ↔
      (st = CpStatus.OPTIMAL ∨ st = CpStatus.FEASIBLE)) ∧
    (∀ st x y x' y', st ≠ CpStatus.OPTIMAL → st ≠ CpStatus.FEASIBLE →
      solutionOutput3 st x y = none ∧
      solutionOutput3 st x y = solutionOutput3 st x' y') := by
  refine ⟨fun st x => ?_, fun st x x' h1 h2 => ?_, fun st x y => ?_,
    fun st x y x' y' h1 h2 => ?_⟩
  · unfold solutionOutput1
    by_cases h : st = CpStatus.OPTIMAL ∨ st = CpStatus.FEASIBLE
    · simp [h]
    · simp [h]
  · have h : ¬(st = CpStatus.OPTIMAL ∨ st = CpStatus.FEASIBLE) := by
      rintro (e | e)
      · exact h1 e
      · exact h2 e
    unfold solutionOutput1
    simp [h]
  · unfold solutionOutput3
    by_cases h : st = CpStatus.OPTIMAL ∨ st = CpStatus.FEASIBLE
    · simp [h]
    · simp [h]
  · have h : ¬(st = CpStatus.OPTIMAL ∨ st = CpStatus.FEASIBLE) := by
      rintro (e | e)
      · exact h1 e
      · exact h2 e
    unfold solutionOutput3
    simp [h]

/-- C9 witness: on INFEASIBLE and UNKNOWN statuses both output branches
emit no placements. -/
theorem placements_only_on_success_witness :
    solutionOutput1 CpStatus.INFEASIBLE Script1.xW = none ∧
    solutionOutput3 CpStatus.UNKNOWN Script3.xW Script3.yW = none :=
  ⟨(placements_only_on_success.2.1 CpStatus.INFEASIBLE Script1.xW Script1.xW
      (by decide) (by decide)).1,
    (placements_only_on_success.2.2.2 CpStatus.UNKNOWN Script3.xW Script3.yW
      Script3.xW Script3.yW (by decide) (by decide)).1⟩

/-- C10: in the second script the course-to-teacher map always lands in the
index range of the declared teachers list — random.randint is called with
the inclusive bounds 0 and len(teachers)-1 — so the lookup
teachers[course_teacher[c]] performed when emitting the solution is in
bounds for every course in every run. -/
theorem course_teacher_lookup_in_bounds :
    ∀ draw : Nat → Nat, ∀ c : Nat,
    Script2.course_teacher draw c < Script2.teachers.length ∧
    (Script2.teacherOf draw c).isSome = true := by
  intro draw c
  have hlen : Script2.teachers.length = 10 := by
    simp [Script2.teachers]
  have hlt : Script2.course_teacher draw c < Script2.teachers.length := by
    unfold Script2.course_teacher Script2.randint
    rw [hlen]
    omega
  refine ⟨hlt, ?_⟩
  unfold Script2.teacherOf
  rw [List.getElem?_eq_getElem hlt]
  rfl

end Timetable
